import Mathlib

/-!
Verification of the AES-GCM binding in `src/node-aes-gcm.cc`
(`gcm::Encrypt`, lines 51-156, and `gcm::Decrypt`, lines 163-269).

The binding drives the OpenSSL EVP interface.  The EVP primitive itself is
external to the repository, so it is modelled here at the level the binding
relies on, faithfully to GCM and to the documented EVP contract:

* GCM is a counter-mode stream cipher: `EVP_EncryptUpdate` /
  `EVP_DecryptUpdate` on the primary buffer XOR the input with a keystream
  determined by the key and IV, producing exactly as many bytes as consumed
  and reporting that count through `outl`.  The keystream is kept abstract as
  a parameter `ks : Bytes → Bytes → Nat → Nat` (key, iv, byte index).
* The authentication tag is a deterministic function of key, IV, absorbed
  associated data and the ciphertext; it is kept abstract as a parameter
  `tagFn : Bytes → Bytes → Bytes → Bytes → Bytes`.
* `EVP_EncryptFinal_ex` for GCM writes 0 bytes and sets `outl := 0`.
  `EVP_DecryptFinal_ex` recomputes the tag, compares it to the reference tag
  installed via `EVP_CTRL_GCM_SET_TAG`, and returns the verdict; on success
  it sets `outl := 0`, on failure it returns 0 WITHOUT writing `outl`
  (OpenSSL's custom-cipher final path returns before the `*outl = i`
  assignment when `do_cipher` reports failure), so `outl` keeps the value
  written by the preceding update call.
* Every EVP call returns a status.  The binding never inspects any of them
  except the one of `EVP_DecryptFinal_ex` (stored as `auth_ok`); the statuses
  are modelled by a parameter `st : Nat → Bool`, one slot per call site, and
  are bound and discarded exactly where the source discards the return value.

All C `size_t` arithmetic is carried out modulo `2 ^ 64`.

Every EVP call the binding makes is additionally recorded in an `EvpEvent`
trace returned next to the result, so that ordering and presence of calls
can be stated.
-/

/-- A byte buffer: a list of byte values. -/
abbrev Bytes := List Nat

/-- `size_t` modulus: `2 ^ 64`, written as a numeral. -/
def WSIZE : Nat := 18446744073709551616

/-- `AUTH_TAG_LEN` from node-aes-gcm.cc line 38. -/
def AUTH_TAG_LEN : Nat := 16

/-- The errors the binding can throw, named per the spec taxonomy:
`ArgumentError` for a failed argument-shape check, `InvalidKeyLength` for a
key length outside {16, 24, 32}, `InvalidArguments` for the decrypt
argument-shape check (which includes the 16-byte tag-length requirement). -/
inductive NAError where
  | ArgumentError
  | InvalidKeyLength
  | InvalidArguments
  deriving DecidableEq, Repr

/-- The EVP calls the binding can make, recorded in execution order. -/
inductive EvpEvent where
  /-- `EVP_CIPHER_CTX_new` (lines 113 / 227). -/
  | ctxNew
  /-- `EVP_EncryptInit_ex` / `EVP_DecryptInit_ex` with the cipher chosen by
  key length (lines 115 / 229); `bits` is the AES key size. -/
  | cipherInit (bits : Nat)
  /-- `EVP_CIPHER_CTX_ctrl(_, EVP_CTRL_GCM_SET_IVLEN, n, NULL)`
  (lines 118 / 232). -/
  | setIvLen (n : Nat)
  /-- `EVP_EncryptInit_ex` / `EVP_DecryptInit_ex` with key and iv
  (lines 121 / 235). -/
  | keyIvInit
  /-- `EVP_EncryptUpdate` / `EVP_DecryptUpdate` with NULL output: absorb `n`
  bytes of associated data (lines 127 / 241). -/
  | aadUpdate (n : Nat)
  /-- `EVP_EncryptUpdate` / `EVP_DecryptUpdate` on the primary buffer of `n`
  bytes (lines 131 / 245). -/
  | update (n : Nat)
  /-- `EVP_EncryptFinal_ex` / `EVP_DecryptFinal_ex` (lines 135 / 252). -/
  | final
  /-- `EVP_CIPHER_CTX_ctrl(_, EVP_CTRL_GCM_GET_TAG, n, _)` (line 139). -/
  | getTag (n : Nat)
  /-- `EVP_CIPHER_CTX_ctrl(_, EVP_CTRL_GCM_SET_TAG, n, _)` (line 249). -/
  | setTag (n : Nat)
  /-- `EVP_CIPHER_CTX_free` (lines 142 / 256). -/
  | ctxFree
  deriving DecidableEq, Repr

/-- The key-length switch shared by `gcm::Encrypt` (lines 72-85) and
`gcm::Decrypt` (lines 186-199): 16 bytes selects AES-128-GCM, 24 selects
AES-192-GCM, 32 selects AES-256-GCM, anything else is rejected. -/
def cipherBits (key_len : Nat) : Option Nat :=
  if key_len = 16 then some 128
  else if key_len = 24 then some 192
  else if key_len = 32 then some 256
  else none

/-- Line 94: `size_t ciphertext_len = (((plaintext_len - 1) / key_len) + 1)
* key_len;` — the output-buffer size for encrypt, in `size_t` arithmetic
(the subtraction and the final product wrap modulo `2 ^ 64`). -/
def encBufSize (plaintext_len key_len : Nat) : Nat :=
  ((((plaintext_len + (WSIZE - 1)) % WSIZE) / key_len + 1) * key_len) % WSIZE

/-- Line 208: `size_t plaintext_len = (((ciphertext_len - 1) / 16) + 1) *
16;` — the output-buffer size for decrypt, in `size_t` arithmetic. -/
def decBufSize (ciphertext_len : Nat) : Nat :=
  ((((ciphertext_len + (WSIZE - 1)) % WSIZE) / 16 + 1) * 16) % WSIZE

/-- The counter-mode pass of the EVP update call on the primary buffer:
byte `i` of the output is byte `i` of the input XORed with keystream byte
`ks i`.  Decryption is the same pass, which is what makes GCM length
preserving and padding free. -/
def xorStream (ks : Nat → Nat) : Nat → Bytes → Bytes
  | _, [] => []
  | i, b :: bs => (b ^^^ ks i) :: xorStream ks (i + 1) bs

/-- `EVP_CTRL_GCM_GET_TAG` with length `AUTH_TAG_LEN` writes exactly 16
bytes of the primitive's computed tag into the 16-byte `auth_tag` buffer
(line 105 allocates it, line 139 fills it). -/
def tagBytes (t : Bytes) : Bytes :=
  (t ++ List.replicate AUTH_TAG_LEN 0).take AUTH_TAG_LEN

/-- `Nan::CopyBuffer(buf, len)`: copies `len` bytes starting at the native
buffer.  Bytes beyond those the primitive actually wrote are unspecified
heap contents, modelled as 0. -/
def copyBuffer (written : Bytes) (len : Nat) : Bytes :=
  (written ++ List.replicate len 0).take len

/-- Lines 97-103 / 211-217: `Buffer::HasInstance(info[3])` decides whether
associated data was passed; when absent, `aad_len` stays 0 and no bytes are
absorbed. -/
def aadGet : Option Bytes → Bytes
  | some a => a
  | none => []

/-- Lines 126-128 / 240-242: the AAD update call happens iff
`hasAuthData`, i.e. iff the associated-data argument is a buffer (possibly
empty), and absorbs exactly its length. -/
def aadEvents : Option Bytes → List EvpEvent
  | some a => [EvpEvent.aadUpdate a.length]
  | none => []

/-- The return object of `gcm::Encrypt` (lines 148-152). -/
structure EncryptResult where
  ciphertext : Bytes
  auth_tag : Bytes
  deriving DecidableEq, Repr

/-- The return object of `gcm::Decrypt` (lines 262-265). -/
structure DecryptResult where
  plaintext : Bytes
  auth_ok : Bool
  deriving DecidableEq, Repr

/-- Shallow embedding of `gcm::Encrypt` (node-aes-gcm.cc lines 51-156).

The argument-shape check of lines 55-66 requires key, iv and plaintext to be
buffers and the associated data to be a buffer, null or undefined; in this
typed embedding those shapes always hold, so the check always passes.
`ks`, `tagFn`, `st` are the primitive model parameters described at the top
of the file.  Returns the result (or thrown error) together with the trace
of EVP calls made. -/
def gcmEncrypt (ks : Bytes → Bytes → Nat → Nat)
    (tagFn : Bytes → Bytes → Bytes → Bytes → Bytes)
    (st : Nat → Bool)
    (key iv plaintext : Bytes) (aad : Option Bytes) :
    Except NAError EncryptResult × List EvpEvent :=
  -- lines 72-85: key-length switch; default case throws before any EVP call
  match cipherBits key.length with
  | none => (Except.error NAError.InvalidKeyLength, [])
  | some bits =>
      -- line 94: output buffer padded to key_len increments (size_t)
      let _ciphertext_buf_len := encBufSize plaintext.length key.length
      -- lines 97-103: associated data, if given
      let aadBytes := aadGet aad
      -- line 113: EVP_CIPHER_CTX_new; status (NULL check) ignored
      let _s0 := st 0
      -- line 115: EVP_EncryptInit_ex with cipher_type; status ignored
      let _s1 := st 1
      -- line 118: SET_IVLEN ctrl with iv_len; status ignored
      let _s2 := st 2
      -- line 121: EVP_EncryptInit_ex with key and iv; status ignored
      let _s3 := st 3
      -- lines 126-128: absorb aad when present; status ignored
      let _s4 := st 4
      -- line 131: EVP_EncryptUpdate writes the XOR pass and reports
      -- plaintext_len bytes through outl
      let written := xorStream (ks key iv) 0 plaintext
      let outl := plaintext.length
      -- line 132: ciphertext_len = outl
      -- line 135: EVP_EncryptFinal_ex writes 0 bytes, outl := 0; status
      -- ignored
      let _s5 := st 5
      -- line 136: ciphertext_len += outl
      let ciphertext_len := outl + 0
      -- line 139: GET_TAG fills the 16-byte tag buffer; status ignored
      let _s6 := st 6
      let auth_tag := tagBytes (tagFn key iv aadBytes written)
      -- line 142: EVP_CIPHER_CTX_free
      -- lines 148-155: CopyBuffer(ciphertext, ciphertext_len) and the
      -- return object
      (Except.ok { ciphertext := copyBuffer written ciphertext_len,
                   auth_tag := auth_tag },
       [EvpEvent.ctxNew, EvpEvent.cipherInit bits,
        EvpEvent.setIvLen iv.length, EvpEvent.keyIvInit]
         ++ aadEvents aad
         ++ [EvpEvent.update plaintext.length, EvpEvent.final,
             EvpEvent.getTag AUTH_TAG_LEN, EvpEvent.ctxFree])

/-- Shallow embedding of `gcm::Decrypt` (node-aes-gcm.cc lines 163-269).

The argument-shape check of lines 167-180 requires key, iv, ciphertext and
tag to be buffers, the associated data to be a buffer, null or undefined,
and `Buffer::Length(info[4]) != AUTH_TAG_LEN` makes the whole check fail; in
this typed embedding the only conjunct that can fail is the tag length, and
the check precedes the key-length switch.  Returns the result (or thrown
error) together with the trace of EVP calls made. -/
def gcmDecrypt (ks : Bytes → Bytes → Nat → Nat)
    (tagFn : Bytes → Bytes → Bytes → Bytes → Bytes)
    (st : Nat → Bool)
    (key iv ciphertext : Bytes) (aad : Option Bytes) (auth_tag : Bytes) :
    Except NAError DecryptResult × List EvpEvent :=
  -- lines 167-180: argument-shape check, including the tag length
  if auth_tag.length ≠ AUTH_TAG_LEN then
    (Except.error NAError.InvalidArguments, [])
  else
    -- lines 186-199: key-length switch; default case throws before any EVP
    -- call
    match cipherBits key.length with
    | none => (Except.error NAError.InvalidKeyLength, [])
    | some bits =>
        -- line 208: output buffer padded to 16-byte increments (size_t)
        let _plaintext_buf_len := decBufSize ciphertext.length
        -- lines 211-217: associated data, if given
        let aadBytes := aadGet aad
        -- line 227: EVP_CIPHER_CTX_new; status (NULL check) ignored
        let _s0 := st 0
        -- line 229: EVP_DecryptInit_ex with cipher_type; status ignored
        let _s1 := st 1
        -- line 232: SET_IVLEN ctrl with iv_len; status ignored
        let _s2 := st 2
        -- line 235: EVP_DecryptInit_ex with key and iv; status ignored
        let _s3 := st 3
        -- lines 240-242: absorb aad when present; status ignored
        let _s4 := st 4
        -- line 245: EVP_DecryptUpdate writes the XOR pass and reports
        -- ciphertext_len bytes through outl
        let written := xorStream (ks key iv) 0 ciphertext
        let outl := ciphertext.length
        -- line 246: plaintext_len = outl
        -- line 249: SET_TAG installs the 16-byte reference tag; status
        -- ignored
        let _s5 := st 5
        -- line 252: EVP_DecryptFinal_ex recomputes the tag over the
        -- absorbed aad and ciphertext and compares it with the installed
        -- reference; its return value is the only EVP status the binding
        -- observes.  On success it writes 0 bytes and sets outl := 0; on
        -- failure it returns 0 without writing outl, so outl keeps the
        -- value set at line 245.
        let auth_ok := st 6 && (tagBytes (tagFn key iv aadBytes ciphertext) == auth_tag)
        -- line 253: plaintext_len += outl
        let plaintext_len := outl + (if auth_ok then 0 else outl)
        -- line 256: EVP_CIPHER_CTX_free
        -- lines 262-268: CopyBuffer(plaintext, plaintext_len) and the
        -- return object
        (Except.ok { plaintext := copyBuffer written plaintext_len,
                     auth_ok := auth_ok },
         [EvpEvent.ctxNew, EvpEvent.cipherInit bits,
          EvpEvent.setIvLen iv.length, EvpEvent.keyIvInit]
           ++ aadEvents aad
           ++ [EvpEvent.update ciphertext.length,
               EvpEvent.setTag AUTH_TAG_LEN, EvpEvent.final,
               EvpEvent.ctxFree])

/-- A primitive whose every call succeeds (normal operation). -/
def allOk : Nat → Bool := fun _ => true

/-- A primitive whose every call reports failure (for example,
`EVP_CIPHER_CTX_new` returning NULL). -/
def allFail : Nat → Bool := fun _ => false

/-- Recognizes the AAD-absorption call in a trace. -/
def isAadUpdate : EvpEvent → Bool
  | EvpEvent.aadUpdate _ => true
  | _ => false

/-- Concrete keystream instance used for witnesses. -/
def ks0 (key iv : Bytes) (i : Nat) : Nat :=
  (key.sum + iv.sum + i) % 256

/-- Concrete tag-function instance used for witnesses. -/
def tagFn0 (key iv aadData data : Bytes) : Bytes :=
  (List.range AUTH_TAG_LEN).map
    (fun i => (key.sum + 2 * iv.sum + 3 * aadData.sum + 5 * data.sum + 7 * i) % 256)

/-- A 16-byte all-zero key. -/
def key16 : Bytes := List.replicate 16 0

/-- A 12-byte all-zero iv. -/
def iv12 : Bytes := List.replicate 12 0

/-- A 16-byte tag that matches nothing produced by `tagFn0` on the inputs
used in the witnesses. -/
def badTag : Bytes := List.replicate 16 1

/-! ### Helper lemmas about the primitive model -/

/-- The XOR pass preserves length: GCM produces exactly as many bytes as it
consumes. -/
lemma xorStream_length (ks : Nat → Nat) (i : Nat) (l : Bytes) :
    (xorStream ks i l).length = l.length := by
  induction l generalizing i with
  | nil => rfl
  | cons b bs ih => simp [xorStream, ih]

/-- The XOR pass is an involution: decrypting an encryption with the same
keystream restores the input. -/
lemma xorStream_xorStream (ks : Nat → Nat) (i : Nat) (l : Bytes) :
    xorStream ks i (xorStream ks i l) = l := by
  induction l generalizing i with
  | nil => rfl
  | cons b bs ih =>
      simp [xorStream, ih, Nat.xor_assoc]

/-- Copying exactly the written bytes returns them unchanged. -/
lemma copyBuffer_full (w : Bytes) : copyBuffer w w.length = w := by
  simp [copyBuffer, List.take_left]

/-- The copied buffer has exactly the requested length. -/
lemma copyBuffer_length (w : Bytes) (n : Nat) :
    (copyBuffer w n).length = n := by
  simp [copyBuffer]

/-- The tag buffer always holds exactly `AUTH_TAG_LEN` bytes. -/
lemma tagBytes_length (t : Bytes) : (tagBytes t).length = AUTH_TAG_LEN := by
  simp [tagBytes]

/-- Normal form of `gcmEncrypt` once the key length is accepted. -/
lemma gcmEncrypt_eq (ks : Bytes → Bytes → Nat → Nat)
    (tagFn : Bytes → Bytes → Bytes → Bytes → Bytes) (st : Nat → Bool)
    (key iv plaintext : Bytes) (aad : Option Bytes) (bits : Nat)
    (hc : cipherBits key.length = some bits) :
    gcmEncrypt ks tagFn st key iv plaintext aad =
      (Except.ok
        { ciphertext := copyBuffer (xorStream (ks key iv) 0 plaintext)
            (plaintext.length + 0),
          auth_tag := tagBytes
            (tagFn key iv (aadGet aad) (xorStream (ks key iv) 0 plaintext)) },
       [EvpEvent.ctxNew, EvpEvent.cipherInit bits,
        EvpEvent.setIvLen iv.length, EvpEvent.keyIvInit]
         ++ aadEvents aad
         ++ [EvpEvent.update plaintext.length, EvpEvent.final,
             EvpEvent.getTag AUTH_TAG_LEN, EvpEvent.ctxFree]) := by
  unfold gcmEncrypt
  rw [hc]

/-- Normal form of `gcmDecrypt` once the tag length and key length are
accepted. -/
lemma gcmDecrypt_eq (ks : Bytes → Bytes → Nat → Nat)
    (tagFn : Bytes → Bytes → Bytes → Bytes → Bytes) (st : Nat → Bool)
    (key iv ciphertext : Bytes) (aad : Option Bytes) (auth_tag : Bytes)
    (bits : Nat) (htag : auth_tag.length = AUTH_TAG_LEN)
    (hc : cipherBits key.length = some bits) :
    gcmDecrypt ks tagFn st key iv ciphertext aad auth_tag =
      (Except.ok
        { plaintext := copyBuffer (xorStream (ks key iv) 0 ciphertext)
            (ciphertext.length +
              (if st 6 && (tagBytes (tagFn key iv (aadGet aad) ciphertext) == auth_tag)
               then 0 else ciphertext.length)),
          auth_ok := st 6 && (tagBytes (tagFn key iv (aadGet aad) ciphertext) == auth_tag) },
       [EvpEvent.ctxNew, EvpEvent.cipherInit bits,
        EvpEvent.setIvLen iv.length, EvpEvent.keyIvInit]
         ++ aadEvents aad
         ++ [EvpEvent.update ciphertext.length,
             EvpEvent.setTag AUTH_TAG_LEN, EvpEvent.final,
             EvpEvent.ctxFree]) := by
  unfold gcmDecrypt
  rw [if_neg (by simp [htag]), hc]

/-- A valid key length always selects a cipher. -/
lemma cipherBits_isSome (key : Bytes)
    (hk : key.length = 16 ∨ key.length = 24 ∨ key.length = 32) :
    ∃ bits, cipherBits key.length = some bits := by
  rcases hk with h | h | h <;> rw [h] <;> exact ⟨_, rfl⟩

/-! ### Claim theorems -/

/-- C1: Round trip.  For every key of length 16, 24 or 32 bytes, every iv,
every plaintext and every associated data (including absent), decrypting the
ciphertext and auth_tag produced by encrypt — with the same key, iv and
associated data — succeeds and returns the original plaintext with
`auth_ok = true`.  Stated for every keystream and tag function of the
primitive model, under a primitive whose calls succeed (`allOk`). -/
theorem encrypt_decrypt_round_trip (ks : Bytes → Bytes → Nat → Nat)
    (tagFn : Bytes → Bytes → Bytes → Bytes → Bytes)
    (key iv plaintext : Bytes) (aad : Option Bytes)
    (hk : key.length = 16 ∨ key.length = 24 ∨ key.length = 32) :
    ∃ er : EncryptResult,
      (gcmEncrypt ks tagFn allOk key iv plaintext aad).1 = Except.ok er ∧
      (gcmDecrypt ks tagFn allOk key iv er.ciphertext aad er.auth_tag).1 =
        Except.ok { plaintext := plaintext, auth_ok := true } := by
  obtain ⟨bits, hc⟩ := cipherBits_isSome key hk
  refine ⟨_, congrArg Prod.fst (gcmEncrypt_eq ks tagFn allOk key iv plaintext aad bits hc), ?_⟩
  have hwlen : (xorStream (ks key iv) 0 plaintext).length = plaintext.length :=
    xorStream_length _ _ _
  have hcb : copyBuffer (xorStream (ks key iv) 0 plaintext) (plaintext.length + 0) =
      xorStream (ks key iv) 0 plaintext := by
    rw [Nat.add_zero, ← hwlen, copyBuffer_full]
  rw [gcmDecrypt_eq ks tagFn allOk key iv _ aad _ bits (tagBytes_length _) hc]
  have ht : (tagBytes (tagFn key iv (aadGet aad) (xorStream (ks key iv) 0 plaintext)) ==
      tagBytes (tagFn key iv (aadGet aad) (xorStream (ks key iv) 0 plaintext))) = true :=
    beq_self_eq_true _
  simp only [hcb, allOk, Bool.true_and, xorStream_xorStream]
  simp [ht, hwlen, copyBuffer_full]

/-- C1 witness: the round trip at a concrete input (16-byte zero key,
12-byte zero iv, 2-byte plaintext, no associated data). -/
theorem encrypt_decrypt_round_trip_witness :
    ∃ er : EncryptResult,
      (gcmEncrypt ks0 tagFn0 allOk key16 iv12 [104, 105] none).1 = Except.ok er ∧
      (gcmDecrypt ks0 tagFn0 allOk key16 iv12 er.ciphertext none er.auth_tag).1 =
        Except.ok { plaintext := [104, 105], auth_ok := true } :=
  encrypt_decrypt_round_trip ks0 tagFn0 key16 iv12 [104, 105] none
    (Or.inl (by decide))

/-- C4: For every key whose length is not 16, 24 or 32 bytes, both encrypt
and decrypt fail with `InvalidKeyLength`, the trace of EVP calls is empty
(the key bytes are not used for any cryptographic work) and no output is
produced.  For decrypt the statement assumes the argument-shape check
passes (16-byte tag); with a malformed tag the shape error is reported
first (see the argument-order theorem). -/
theorem invalid_key_rejected (ks : Bytes → Bytes → Nat → Nat)
    (tagFn : Bytes → Bytes → Bytes → Bytes → Bytes) (st : Nat → Bool)
    (key iv buf : Bytes) (aad : Option Bytes) (tag : Bytes)
    (h16 : key.length ≠ 16) (h24 : key.length ≠ 24) (h32 : key.length ≠ 32)
    (htag : tag.length = AUTH_TAG_LEN) :
    gcmEncrypt ks tagFn st key iv buf aad =
      (Except.error NAError.InvalidKeyLength, []) ∧
    gcmDecrypt ks tagFn st key iv buf aad tag =
      (Except.error NAError.InvalidKeyLength, []) := by
  have hc : cipherBits key.length = none := by
    simp [cipherBits, h16, h24, h32]
  constructor
  · unfold gcmEncrypt
    rw [hc]
  · unfold gcmDecrypt
    rw [if_neg (by simp [htag]), hc]

/-- C4 witness: a 15-byte key is rejected by both operations with an empty
EVP trace. -/
theorem invalid_key_rejected_witness :
    gcmEncrypt ks0 tagFn0 allOk (List.replicate 15 0) iv12 [1] none =
      (Except.error NAError.InvalidKeyLength, []) ∧
    gcmDecrypt ks0 tagFn0 allOk (List.replicate 15 0) iv12 [1] none badTag =
      (Except.error NAError.InvalidKeyLength, []) :=
  invalid_key_rejected ks0 tagFn0 allOk (List.replicate 15 0) iv12 [1] none
    badTag (by decide) (by decide) (by decide) (by decide)

/-- C5: For every decrypt call whose auth_tag is not exactly 16 bytes, the
operation fails with the argument error (`InvalidArguments`), the trace of
EVP calls is empty (no cryptographic call is made) and no output is
produced. -/
theorem invalid_tag_length_rejected (ks : Bytes → Bytes → Nat → Nat)
    (tagFn : Bytes → Bytes → Bytes → Bytes → Bytes) (st : Nat → Bool)
    (key iv ciphertext : Bytes) (aad : Option Bytes) (tag : Bytes)
    (htag : tag.length ≠ AUTH_TAG_LEN) :
    gcmDecrypt ks tagFn st key iv ciphertext aad tag =
      (Except.error NAError.InvalidArguments, []) := by
  unfold gcmDecrypt
  rw [if_pos htag]

/-- C5 witness: a 12-byte tag is rejected with an empty EVP trace, on an
otherwise fully valid call (16-byte key). -/
theorem invalid_tag_length_rejected_witness :
    gcmDecrypt ks0 tagFn0 allOk key16 iv12 [1] none (List.replicate 12 1) =
      (Except.error NAError.InvalidArguments, []) :=
  invalid_tag_length_rejected ks0 tagFn0 allOk key16 iv12 [1] none
    (List.replicate 12 1) (by decide)

/-- C6: For every input accepted by encrypt, the returned ciphertext has
length exactly the plaintext length and the returned auth_tag has length
exactly 16 bytes.  Stated for every primitive model and status function;
the hypothesis is exactly the key-length validation. -/
theorem encrypt_output_lengths (ks : Bytes → Bytes → Nat → Nat)
    (tagFn : Bytes → Bytes → Bytes → Bytes → Bytes) (st : Nat → Bool)
    (key iv plaintext : Bytes) (aad : Option Bytes)
    (hk : key.length = 16 ∨ key.length = 24 ∨ key.length = 32) :
    ∃ er : EncryptResult,
      (gcmEncrypt ks tagFn st key iv plaintext aad).1 = Except.ok er ∧
      er.ciphertext.length = plaintext.length ∧
      er.auth_tag.length = AUTH_TAG_LEN := by
  obtain ⟨bits, hc⟩ := cipherBits_isSome key hk
  refine ⟨_, congrArg Prod.fst (gcmEncrypt_eq ks tagFn st key iv plaintext aad bits hc), ?_, ?_⟩
  · simp [copyBuffer_length]
  · exact tagBytes_length _

/-- C6 witness: the empty plaintext, the case the claim calls out, yields a
ciphertext of length 0 and a 16-byte tag. -/
theorem encrypt_output_lengths_witness :
    ∃ er : EncryptResult,
      (gcmEncrypt ks0 tagFn0 allOk key16 iv12 [] none).1 = Except.ok er ∧
      er.ciphertext.length = List.length ([] : Bytes) ∧
      er.auth_tag.length = AUTH_TAG_LEN :=
  encrypt_output_lengths ks0 tagFn0 allOk key16 iv12 [] none
    (Or.inl (by decide))

/-- C10: In decrypt the argument-shape check (which contains the 16-byte
tag-length requirement) is evaluated before the key-length switch, so a call
whose key length is invalid and whose tag is not 16 bytes reports the
argument error, not `InvalidKeyLength`. -/
theorem decrypt_arg_check_before_key_check (ks : Bytes → Bytes → Nat → Nat)
    (tagFn : Bytes → Bytes → Bytes → Bytes → Bytes) (st : Nat → Bool)
    (key iv ciphertext : Bytes) (aad : Option Bytes) (tag : Bytes)
    (_h16 : key.length ≠ 16) (_h24 : key.length ≠ 24) (_h32 : key.length ≠ 32)
    (htag : tag.length ≠ AUTH_TAG_LEN) :
    gcmDecrypt ks tagFn st key iv ciphertext aad tag =
      (Except.error NAError.InvalidArguments, []) ∧
    NAError.InvalidArguments ≠ NAError.InvalidKeyLength := by
  constructor
  · unfold gcmDecrypt
    rw [if_pos htag]
  · decide

/-- C10 witness: a 15-byte key together with a 12-byte tag reports the
argument error. -/
theorem decrypt_arg_check_before_key_check_witness :
    gcmDecrypt ks0 tagFn0 allOk (List.replicate 15 0) iv12 [1] none
        (List.replicate 12 1) =
      (Except.error NAError.InvalidArguments, []) ∧
    NAError.InvalidArguments ≠ NAError.InvalidKeyLength :=
  decrypt_arg_check_before_key_check ks0 tagFn0 allOk (List.replicate 15 0)
    iv12 [1] none (List.replicate 12 1) (by decide) (by decide) (by decide)
    (by decide)

/-- C7: Both pipelines drive the EVP context through exactly the claimed
call order: context creation, cipher binding, IV-length binding, key/iv
binding, then associated-data absorption (present iff associated data was
passed, and strictly before the primary buffer), then the primary-buffer
pass, then finalization; on the decrypt path the caller-supplied reference
tag is installed (`setTag`) before finalization, and the verdict comes from
the finalization call.  The traces are equal to these exact sequences. -/
theorem evp_call_order (ks : Bytes → Bytes → Nat → Nat)
    (tagFn : Bytes → Bytes → Bytes → Bytes → Bytes) (st : Nat → Bool)
    (key iv buf ct : Bytes) (aad : Option Bytes) (tag : Bytes) (bits : Nat)
    (hc : cipherBits key.length = some bits)
    (htag : tag.length = AUTH_TAG_LEN) :
    (gcmEncrypt ks tagFn st key iv buf aad).2 =
      [EvpEvent.ctxNew, EvpEvent.cipherInit bits,
       EvpEvent.setIvLen iv.length, EvpEvent.keyIvInit]
        ++ aadEvents aad
        ++ [EvpEvent.update buf.length, EvpEvent.final,
            EvpEvent.getTag AUTH_TAG_LEN, EvpEvent.ctxFree] ∧
    (gcmDecrypt ks tagFn st key iv ct aad tag).2 =
      [EvpEvent.ctxNew, EvpEvent.cipherInit bits,
       EvpEvent.setIvLen iv.length, EvpEvent.keyIvInit]
        ++ aadEvents aad
        ++ [EvpEvent.update ct.length,
            EvpEvent.setTag AUTH_TAG_LEN, EvpEvent.final,
            EvpEvent.ctxFree] := by
  constructor
  · rw [gcmEncrypt_eq ks tagFn st key iv buf aad bits hc]
  · rw [gcmDecrypt_eq ks tagFn st key iv ct aad tag bits htag hc]

/-- C7 witness: the call order at a concrete input, with associated data
present. -/
theorem evp_call_order_witness :
    (gcmEncrypt ks0 tagFn0 allOk key16 iv12 [1, 2] (some [7])).2 =
      [EvpEvent.ctxNew, EvpEvent.cipherInit 128,
       EvpEvent.setIvLen iv12.length, EvpEvent.keyIvInit]
        ++ aadEvents (some [7])
        ++ [EvpEvent.update (List.length [1, 2]), EvpEvent.final,
            EvpEvent.getTag AUTH_TAG_LEN, EvpEvent.ctxFree] ∧
    (gcmDecrypt ks0 tagFn0 allOk key16 iv12 [3] (some [7]) badTag).2 =
      [EvpEvent.ctxNew, EvpEvent.cipherInit 128,
       EvpEvent.setIvLen iv12.length, EvpEvent.keyIvInit]
        ++ aadEvents (some [7])
        ++ [EvpEvent.update (List.length [3]),
            EvpEvent.setTag AUTH_TAG_LEN, EvpEvent.final,
            EvpEvent.ctxFree] :=
  evp_call_order ks0 tagFn0 allOk key16 iv12 [1, 2] [3] (some [7]) badTag 128
    (by decide) (by decide)

/-- C9: A null or undefined associated-data argument (`none`) skips the
AAD-absorption call entirely — no `aadUpdate` event appears in either
trace — whereas a passed associated-data buffer `a`, including the empty
buffer, triggers exactly one AAD-absorption call of `a.length` (zero for
the empty buffer) in each trace: the two cases take different code paths. -/
theorem aad_absent_vs_empty (ks : Bytes → Bytes → Nat → Nat)
    (tagFn : Bytes → Bytes → Bytes → Bytes → Bytes) (st : Nat → Bool)
    (key iv buf ct : Bytes) (tag : Bytes) (a : Bytes) (bits : Nat)
    (hc : cipherBits key.length = some bits)
    (htag : tag.length = AUTH_TAG_LEN) :
    ((gcmEncrypt ks tagFn st key iv buf none).2.filter isAadUpdate = [] ∧
     (gcmDecrypt ks tagFn st key iv ct none tag).2.filter isAadUpdate = []) ∧
    ((gcmEncrypt ks tagFn st key iv buf (some a)).2.filter isAadUpdate =
       [EvpEvent.aadUpdate a.length] ∧
     (gcmDecrypt ks tagFn st key iv ct (some a) tag).2.filter isAadUpdate =
       [EvpEvent.aadUpdate a.length]) := by
  refine ⟨⟨?_, ?_⟩, ?_, ?_⟩
  · rw [gcmEncrypt_eq ks tagFn st key iv buf none bits hc]
    simp [aadEvents, isAadUpdate]
  · rw [gcmDecrypt_eq ks tagFn st key iv ct none tag bits htag hc]
    simp [aadEvents, isAadUpdate]
  · rw [gcmEncrypt_eq ks tagFn st key iv buf (some a) bits hc]
    simp [aadEvents, isAadUpdate]
  · rw [gcmDecrypt_eq ks tagFn st key iv ct (some a) tag bits htag hc]
    simp [aadEvents, isAadUpdate]

/-- C9 witness: at a concrete input, comparing the absent case with the
zero-length buffer case: the former produces no `aadUpdate` event, the
latter exactly one with length 0. -/
theorem aad_absent_vs_empty_witness :
    ((gcmEncrypt ks0 tagFn0 allOk key16 iv12 [1] none).2.filter isAadUpdate = [] ∧
     (gcmDecrypt ks0 tagFn0 allOk key16 iv12 [1] none badTag).2.filter isAadUpdate = []) ∧
    ((gcmEncrypt ks0 tagFn0 allOk key16 iv12 [1] (some [])).2.filter isAadUpdate =
       [EvpEvent.aadUpdate (List.length ([] : Bytes))] ∧
     (gcmDecrypt ks0 tagFn0 allOk key16 iv12 [1] (some []) badTag).2.filter isAadUpdate =
       [EvpEvent.aadUpdate (List.length ([] : Bytes))]) :=
  aad_absent_vs_empty ks0 tagFn0 allOk key16 iv12 [1] [1] badTag [] 128
    (by decide) (by decide)

/-- C2 (refuted): the claim says a validated decrypt call always returns
the plaintext buffer with length equal to the ciphertext length, even when
`auth_ok` is false.  On the failing-verdict path `EVP_DecryptFinal_ex`
returns 0 without writing `outl`, so line 253 (`plaintext_len += outl`)
adds the stale value set by the update call (the ciphertext length), and
the code returns a buffer of twice the ciphertext length.  Concretely: with
a 2-byte ciphertext and a mismatching 16-byte tag, the call returns a
normal (non-error) result with `auth_ok = false` whose plaintext has
length 4 = 2 × 2, the second half being unwritten buffer contents. -/
theorem decrypt_failure_length_bug :
    (gcmDecrypt ks0 tagFn0 allOk key16 iv12 [1, 2] none badTag).1 =
      Except.ok { plaintext := [1, 3, 0, 0], auth_ok := false } ∧
    List.length ([1, 3, 0, 0] : Bytes) = 2 * List.length ([1, 2] : Bytes) :=
  ⟨rfl, rfl⟩

/-- C8 (refuted): the claim says any failure internal to the primitive
(context allocation, init/update/control calls) makes the call fail with a
propagated error.  The binding never inspects any EVP status: with every
primitive call reporting failure (`allFail`, e.g. `EVP_CIPHER_CTX_new`
returning NULL), encrypt still returns the normal `{ciphertext, auth_tag}`
result — identical to the all-success run — and decrypt still returns a
normal result instead of an error. -/
theorem primitive_failures_ignored :
    (gcmEncrypt ks0 tagFn0 allFail key16 iv12 [1, 2] none).1 =
      Except.ok { ciphertext := [1, 3],
                  auth_tag := [20, 27, 34, 41, 48, 55, 62, 69,
                               76, 83, 90, 97, 104, 111, 118, 125] } ∧
    (gcmEncrypt ks0 tagFn0 allFail key16 iv12 [1, 2] none).1 =
      (gcmEncrypt ks0 tagFn0 allOk key16 iv12 [1, 2] none).1 ∧
    (gcmDecrypt ks0 tagFn0 allFail key16 iv12 [1, 2] none badTag).1 =
      Except.ok { plaintext := [1, 3, 0, 0], auth_ok := false } :=
  ⟨rfl, rfl, rfl⟩

/-- C3 counterexample: the output-buffer size computation of lines 94 and
208 does round up to a cipher-specific block multiple, and does underflow
for a zero-length input.  Concretely: a 5-byte plaintext with a 16-byte key
gets a 16-byte buffer (16 is a multiple of the block size strictly above
the input length, not the exact input length the claim requires), decrypt
pads a 5-byte ciphertext to 16 likewise, and for the zero-length input with
a 24-byte key the `size_t` expression `plaintext_len - 1` wraps to
`2 ^ 64 - 1` (the underflow), making the computed size 8 instead of the 24
the same formula would give without wraparound. -/
theorem buffer_size_counterexample :
    encBufSize 5 16 = 16 ∧ 5 < encBufSize 5 16 ∧ encBufSize 5 16 % 16 = 0 ∧
    decBufSize 5 = 16 ∧
    encBufSize 0 24 = 8 ∧ (0 + (WSIZE - 1)) % WSIZE = WSIZE - 1 ∧
    ((WSIZE - 1) / 24 + 1) * 24 % WSIZE = 8 := by
  decide

/-- C3 as amended: the output-buffer size computation rounds the input
length up to the next multiple of the key length (encrypt) resp. of 16
(decrypt) in `size_t` arithmetic; for every nonzero input length (below the
`size_t` wrap threshold) it does not wrap, yields a size of at least the
input length that is a multiple of the block, and the returned ciphertext
length equals the length the primitive reports as produced (the plaintext
length).  (The zero-length case wraps, and the decrypt output length on a
failing verdict is settled separately — see the C2 theorem.) -/
theorem buffer_size_amended (ks : Bytes → Bytes → Nat → Nat)
    (tagFn : Bytes → Bytes → Bytes → Bytes → Bytes) (st : Nat → Bool)
    (key iv p : Bytes) (aad : Option Bytes) (k : Nat)
    (hk : k = 16 ∨ k = 24 ∨ k = 32) (hkey : key.length = k)
    (hlen : 1 ≤ p.length) (hW : p.length + k ≤ WSIZE) :
    encBufSize p.length k = ((p.length - 1) / k + 1) * k ∧
    p.length ≤ encBufSize p.length k ∧
    encBufSize p.length k % k = 0 ∧
    p.length ≤ decBufSize p.length ∧
    decBufSize p.length % 16 = 0 ∧
    ∃ er : EncryptResult,
      (gcmEncrypt ks tagFn st key iv p aad).1 = Except.ok er ∧
      er.ciphertext.length = p.length := by
  obtain ⟨bits, hc⟩ : ∃ b, cipherBits key.length = some b := by
    rcases hk with rfl | rfl | rfl <;> rw [hkey] <;> exact ⟨_, rfl⟩
  have h1 : encBufSize p.length k = ((p.length - 1) / k + 1) * k := by
    rcases hk with rfl | rfl | rfl <;>
      simp only [encBufSize, WSIZE] at hW ⊢ <;> omega
  have h2 : decBufSize p.length = ((p.length - 1) / 16 + 1) * 16 := by
    rcases hk with rfl | rfl | rfl <;>
      simp only [decBufSize, WSIZE] at hW ⊢ <;> omega
  refine ⟨h1, ?_, ?_, ?_, ?_,
    ⟨_, congrArg Prod.fst (gcmEncrypt_eq ks tagFn st key iv p aad bits hc),
      by simp [copyBuffer_length]⟩⟩
  · rw [h1]; rcases hk with rfl | rfl | rfl <;> omega
  · rw [h1]; exact Nat.mul_mod_left _ _
  · rw [h2]; omega
  · rw [h2]; exact Nat.mul_mod_left _ _

/-- C3 amended witness: the amended statement at a 5-byte plaintext with a
16-byte key. -/
theorem buffer_size_amended_witness :
    encBufSize (List.length ([1, 2, 3, 4, 5] : Bytes)) 16 =
      ((List.length ([1, 2, 3, 4, 5] : Bytes) - 1) / 16 + 1) * 16 ∧
    List.length ([1, 2, 3, 4, 5] : Bytes) ≤
      encBufSize (List.length ([1, 2, 3, 4, 5] : Bytes)) 16 ∧
    encBufSize (List.length ([1, 2, 3, 4, 5] : Bytes)) 16 % 16 = 0 ∧
    List.length ([1, 2, 3, 4, 5] : Bytes) ≤
      decBufSize (List.length ([1, 2, 3, 4, 5] : Bytes)) ∧
    decBufSize (List.length ([1, 2, 3, 4, 5] : Bytes)) % 16 = 0 ∧
    ∃ er : EncryptResult,
      (gcmEncrypt ks0 tagFn0 allOk key16 iv12 [1, 2, 3, 4, 5] none).1 =
        Except.ok er ∧
      er.ciphertext.length = List.length ([1, 2, 3, 4, 5] : Bytes) :=
  buffer_size_amended ks0 tagFn0 allOk key16 iv12 [1, 2, 3, 4, 5] none 16
    (Or.inl rfl) (by decide) (by decide) (by decide)
